import Mathlib

/-!
Shallow embedding of `src/collector/devstat_freebsd.go` (node_exporter,
FreeBSD collectors): the devstat device-I/O decoder
(`devstatCollector.Update` together with the cgo helpers `_get_ndevs` and
`_get_stats`) and the CPU time decoder (`getCPUTimes` and
`statCollector.Update`).

Modelling conventions:
* Machine integers are `Nat`/`Int`.  The Go `int` (and C `long`) on the
  64-bit FreeBSD targets is 8 bytes wide (`nativeWidth`); `int32` fields of
  `kern.clockrate` are 4 bytes.  Byte order is little-endian (x86-64).
* `float64` arithmetic is modelled with exact rationals (`Rat`); the only
  arithmetic performed on the values is a single division per value.
  Note `Rat` division by zero yields `0` where IEEE-754 would yield
  `NaN`/`Inf`; no theorem below asserts the numeric result of a division
  whose divisor may be zero.
* Kernel state is an explicit parameter: the two `unix.SysctlRaw` results
  are `Except Unit (List Nat)` values (byte blobs), and the cgo device
  queries are a count plus a per-index record function.
* The Go code dereferences the `kern.clockrate` buffer through an
  unchecked `unsafe.Pointer`; when the buffer is shorter than the 20-byte
  `clockinfo` layout, the read continues into adjacent process memory.
  That adjacent memory is the explicit model parameter `oob`.
* A Go runtime panic (index out of range) is modelled as the distinguished
  outcome `Err.outOfRange`, kept separate from an ordinary error return
  (`Err.sysctlFailed`).
-/

set_option maxRecDepth 8000

deriving instance DecidableEq for Except

namespace Collector

/-- `unsafe.Sizeof(int(0))`: the platform-native integer width in bytes
(8 on the 64-bit FreeBSD platforms this collector targets). -/
def nativeWidth : Nat := 8

/-- Byte `i` of a kernel-returned buffer; indices past the end of the
buffer read the adjacent process memory `oob` (the Go code reads through
an unchecked `unsafe.Pointer`, so such reads do not fail). -/
def byteAt (b : List Nat) (oob : Nat → Nat) (i : Nat) : Nat :=
  if h : i < b.length then b.get ⟨i, h⟩ else oob (i - b.length)

/-- Little-endian signed 32-bit integer at byte offset `off`. -/
def int32At (b : List Nat) (oob : Nat → Nat) (off : Nat) : Int :=
  let u := byteAt b oob off + 256 * byteAt b oob (off + 1) +
    65536 * byteAt b oob (off + 2) + 16777216 * byteAt b oob (off + 3)
  if u < 2147483648 then (u : Int) else (u : Int) - 4294967296

/-- The Go `clockinfo` struct: five native-order `int32` fields
`{hz, tick, spare, stathz, profhz}` (layout of `kern.clockrate`). -/
structure clockinfo where
  hz : Int
  tick : Int
  spare : Int
  stathz : Int
  profhz : Int
  deriving DecidableEq, Repr

/-- `*(*clockinfo)(unsafe.Pointer(&clockb[0]))`: reinterpret the first 20
bytes starting at the buffer as a `clockinfo`, reading past the end of a
short buffer into adjacent memory `oob`. -/
def decodeClockinfo (b : List Nat) (oob : Nat → Nat) : clockinfo :=
  { hz := int32At b oob 0
    tick := int32At b oob 4
    spare := int32At b oob 8
    stathz := int32At b oob 12
    profhz := int32At b oob 16 }

/-- Little-endian signed 64-bit (native `int`) value of 8 bytes. -/
def word64 (b0 b1 b2 b3 b4 b5 b6 b7 : Nat) : Int :=
  let u := b0 + 256 * b1 + 65536 * b2 + 16777216 * b3 +
    4294967296 * b4 + 1099511627776 * b5 + 281474976710656 * b6 +
    72057594037927936 * b7
  if u < 9223372036854775808 then (u : Int) else (u : Int) - 18446744073709551616

/-- The scan loop `for len(cpb) >= int(unsafe.Sizeof(int(0)))`: read one
native word while at least `nativeWidth` bytes remain, then advance; any
trailing bytes that do not fill a whole word are dropped. -/
def decodeWords : List Nat → List Int
  | b0 :: b1 :: b2 :: b3 :: b4 :: b5 :: b6 :: b7 :: rest =>
      word64 b0 b1 b2 b3 b4 b5 b6 b7 :: decodeWords rest
  | _ => []

/-- One per-CPU record of the five converted time-in-state values, in the
order the Go code assigns them: `user, nice, sys, intr, idle`. -/
structure cputime where
  user : Rat
  nice : Rat
  sys : Rat
  intr : Rat
  idle : Rat
  deriving DecidableEq, Repr

/-- Outcomes of the CPU decoder: an error return propagated from
`unix.SysctlRaw`, or a Go runtime panic (index out of range), which is a
crash rather than a reported error. -/
inductive Err where
  | sysctlFailed
  | outOfRange
  deriving DecidableEq, Repr

/-- `true` iff an `Except` value is a success. -/
def isOk : Except ε α → Bool
  | .ok _ => true
  | .error _ => false

/-- The conversion-frequency selection in `getCPUTimes`:
`if clock.stathz > 0 { cpufreq = float64(clock.stathz) } else { cpufreq = float64(clock.hz) }`. -/
def cpufreqOf (clockb : List Nat) (oob : Nat → Nat) : Rat :=
  if (decodeClockinfo clockb oob).stathz > 0
  then ((decodeClockinfo clockb oob).stathz : Rat)
  else ((decodeClockinfo clockb oob).hz : Rat)

/-- The grouping loop of `getCPUTimes`: consume five converted values per
CPU.  For an input whose length is a multiple of 5 this is exactly the Go
loop `for i := 0; i < len(times); i += states`; for other lengths the Go
loop panics (see `getCPUTimes`), so this total function is only ever used
behind the length check. -/
def partitionCPUs : List Rat → List cputime
  | u :: n :: sy :: ir :: idl :: rest => ⟨u, n, sy, ir, idl⟩ :: partitionCPUs rest
  | _ => []

/-- `getCPUTimes`: query `kern.clockrate` (propagating a sysctl error),
dereference its buffer (a panic if the buffer is empty), query
`kern.cp_times` (propagating a sysctl error), select the conversion
frequency, convert each native word to seconds by one division, and group
the values five per CPU.  When the word count is not a multiple of 5 the
Go grouping loop indexes `cpus[i/states]` past the end of the slice it
allocated with `make([]cputime, len(times)/states)` and panics. -/
def getCPUTimes (clockrate cpTimes : Except Unit (List Nat)) (oob : Nat → Nat) :
    Except Err (List cputime) :=
  match clockrate with
  | .error _ => .error .sysctlFailed
  | .ok clockb =>
    if clockb.length = 0 then .error .outOfRange
    else
      match cpTimes with
      | .error _ => .error .sysctlFailed
      | .ok cpb =>
        if ((decodeWords cpb).map (fun (t : Int) => (t : Rat) / cpufreqOf clockb oob)).length % 5 = 0
        then .ok (partitionCPUs
          ((decodeWords cpb).map (fun (t : Int) => (t : Rat) / cpufreqOf clockb oob)))
        else .error .outOfRange

/-- One emitted sample: metric identity, value, ordered label values. -/
structure Sample where
  metric : String
  value : Rat
  labels : List String
  deriving DecidableEq, Repr

/-- The five samples `statCollector.Update` emits for one CPU under the
`seconds_total` metric, labeled `{cpu index as decimal string, mode}`.
The source loop body indexes `cpuTimes[base_idx+C.CP_*]` where `base_idx`
is not declared anywhere in the file; the emission is modelled from the
evident intent (the ranged per-CPU record supplies the five values, in
the fixed mode order user, nice, system, interrupt, idle). -/
def emitCPU (cpu : Nat) (t : cputime) : List Sample :=
  [⟨"seconds_total", t.user, [toString cpu, "user"]⟩,
   ⟨"seconds_total", t.nice, [toString cpu, "nice"]⟩,
   ⟨"seconds_total", t.sys, [toString cpu, "system"]⟩,
   ⟨"seconds_total", t.intr, [toString cpu, "interrupt"]⟩,
   ⟨"seconds_total", t.idle, [toString cpu, "idle"]⟩]

/-- `statCollector.Update`: run `getCPUTimes`, propagate its error, and
otherwise emit five samples per CPU in index order. -/
def statUpdate (clockrate cpTimes : Except Unit (List Nat)) (oob : Nat → Nat) :
    Except Err (List Sample) :=
  match getCPUTimes clockrate cpTimes oob with
  | .error e => .error e
  | .ok cpuTimes => .ok ((cpuTimes.enum).flatMap (fun p => emitCPU p.1 p.2))

/-- The cgo `Bytes` struct: cumulative byte counters. -/
structure Bytes where
  read : Nat
  write : Nat
  free : Nat
  deriving DecidableEq, Repr

/-- The cgo `Transfers` struct: cumulative transfer counters. -/
structure Transfers where
  other : Nat
  read : Nat
  write : Nat
  free : Nat
  deriving DecidableEq, Repr

/-- The cgo `Duration` struct: cumulative durations in seconds (doubles). -/
structure Duration where
  other : Rat
  read : Rat
  write : Rat
  free : Rat
  deriving DecidableEq, Repr

/-- The cgo `Stats` struct filled by `_get_stats`: note that the `free`
byte/transfer/duration counters are decoded into the record. -/
structure Stats where
  device : String
  unit : Int
  bytes : Bytes
  transfers : Transfers
  duration : Duration
  busyTime : Int
  blocks : Nat
  deriving DecidableEq, Repr

/-- Devstat kernel state: `ndevs` is the value `_get_ndevs()` returns
(`-1` when `devstat_getdevs` failed, `-2` when `calloc` failed, the device
count otherwise) and `getStats i` is the record `_get_stats(i)` yields. -/
structure DevstatKernel where
  ndevs : Int
  getStats : Nat → Stats

/-- The per-device emission block in the body of the
`for i := C.int(0); i < count; i++` loop of `devstatCollector.Update`:
ten samples per device, in source order.  The device label is
`fmt.Sprintf("%s%d", device_name, unit)`, i.e. name and unit number
concatenated with no separator.  The `free` fields of the record are
never read. -/
def emitDevice (s : Stats) : List Sample :=
  [⟨"bytes_total", (s.bytes.read : Rat), [s.device ++ toString s.unit, "read"]⟩,
   ⟨"bytes_total", (s.bytes.write : Rat), [s.device ++ toString s.unit, "write"]⟩,
   ⟨"transfers_total", (s.transfers.other : Rat), [s.device ++ toString s.unit, "other"]⟩,
   ⟨"transfers_total", (s.transfers.read : Rat), [s.device ++ toString s.unit, "read"]⟩,
   ⟨"transfers_total", (s.transfers.write : Rat), [s.device ++ toString s.unit, "write"]⟩,
   ⟨"duration_seconds_total", s.duration.other, [s.device ++ toString s.unit, "other"]⟩,
   ⟨"duration_seconds_total", s.duration.read, [s.device ++ toString s.unit, "read"]⟩,
   ⟨"duration_seconds_total", s.duration.write, [s.device ++ toString s.unit, "write"]⟩,
   ⟨"busy_time_seconds_total", (s.busyTime : Rat), [s.device ++ toString s.unit]⟩,
   ⟨"blocks_transferred_total", (s.blocks : Rat), [s.device ++ toString s.unit]⟩]

/-- `devstatCollector.Update`: ask `_get_ndevs()` for the device count,
return the error `devstat_getdevs() failed` on the `-1` sentinel and
`calloc() failed` on the `-2` sentinel (emitting nothing), and otherwise
query `_get_stats(i)` for each `i` from `0` to `count-1` in order,
emitting the ten samples per device. -/
def devstatUpdate (k : DevstatKernel) : Except String (List Sample) :=
  if k.ndevs = -1 then .error "devstat_getdevs() failed"
  else if k.ndevs = -2 then .error "calloc() failed"
  else .ok ((List.range k.ndevs.toNat).flatMap (fun i => emitDevice (k.getStats i)))

/-! ### Concrete states used by witnesses and counterexamples -/

/-- A `kern.clockrate` record with `hz = 100`, `stathz = 0` (20 bytes,
little-endian). -/
def clockb100 : List Nat :=
  [100, 0, 0, 0, 0, 0, 0, 0, 0, 0, 0, 0, 0, 0, 0, 0, 0, 0, 0, 0]

/-- A `kern.clockrate` record with `hz = 120`, `stathz = 0`. -/
def clockb120 : List Nat :=
  [120, 0, 0, 0, 0, 0, 0, 0, 0, 0, 0, 0, 0, 0, 0, 0, 0, 0, 0, 0]

/-- A `kern.clockrate` record with every field zero. -/
def clockbZero : List Nat := List.replicate 20 0

/-- Adjacent process memory reading as zero bytes. -/
def oob0 : Nat → Nat := fun _ => 0

/-- A fixed device record used in examples. -/
def statsEx : Stats :=
  { device := "ada", unit := 0
    bytes := { read := 1, write := 2, free := 3 }
    transfers := { other := 4, read := 5, write := 6, free := 7 }
    duration := { other := 8, read := 9, write := 10, free := 11 }
    busyTime := 12, blocks := 13 }

/-- A devstat kernel state with three enumerated devices. -/
def exK3 : DevstatKernel := { ndevs := 3, getStats := fun _ => statsEx }

/-- A devstat kernel state in which `devstat_getdevs` failed. -/
def kFail1 : DevstatKernel := { ndevs := -1, getStats := fun _ => statsEx }

/-- A devstat kernel state in which `calloc` failed. -/
def kFail2 : DevstatKernel := { ndevs := -2, getStats := fun _ => statsEx }

/-! ### Basic lemmas about the decoding functions -/

/-- The scan loop consumes exactly `⌊length / 8⌋` words: trailing bytes
that do not fill a native word are dropped. -/
theorem decodeWords_length : ∀ bs : List Nat, (decodeWords bs).length = bs.length / 8
  | _ :: _ :: _ :: _ :: _ :: _ :: _ :: _ :: rest => by
      have ih := decodeWords_length rest
      simp only [decodeWords, List.length_cons, ih]
      omega
  | [] => rfl
  | [_] => by simp [decodeWords]
  | [_, _] => by simp [decodeWords]
  | [_, _, _] => by simp [decodeWords]
  | [_, _, _, _] => by simp [decodeWords]
  | [_, _, _, _, _] => by simp [decodeWords]
  | [_, _, _, _, _, _] => by simp [decodeWords]
  | [_, _, _, _, _, _, _] => by simp [decodeWords]

/-- The grouping loop produces exactly `⌊length / 5⌋` per-CPU records. -/
theorem partitionCPUs_length : ∀ ts : List Rat, (partitionCPUs ts).length = ts.length / 5
  | _ :: _ :: _ :: _ :: _ :: rest => by
      have ih := partitionCPUs_length rest
      simp only [partitionCPUs, List.length_cons, ih]
      omega
  | [] => rfl
  | [_] => by simp [partitionCPUs]
  | [_, _] => by simp [partitionCPUs]
  | [_, _, _] => by simp [partitionCPUs]
  | [_, _, _, _] => by simp [partitionCPUs]

/-- The `i`-th per-CPU record takes its five fields from the five
contiguous positions starting at `5*i`, in the fixed assignment order
`user, nice, sys, intr, idle`. -/
theorem partitionCPUs_get? : ∀ (ts : List Rat) (i : Nat), 5 * i + 4 < ts.length →
    (partitionCPUs ts).get? i =
      some ⟨ts.getD (5 * i) 0, ts.getD (5 * i + 1) 0, ts.getD (5 * i + 2) 0,
            ts.getD (5 * i + 3) 0, ts.getD (5 * i + 4) 0⟩
  | u :: n :: sy :: ir :: idl :: rest, 0, _ => rfl
  | u :: n :: sy :: ir :: idl :: rest, i + 1, h => by
      have hlt : 5 * i + 4 < rest.length := by
        simp only [List.length_cons] at h; omega
      have ih := partitionCPUs_get? rest i hlt
      have e5 : ∀ (l : List Rat) (m : Nat),
          (u :: n :: sy :: ir :: idl :: l).getD (m + 5) 0 = l.getD m 0 := fun _ _ => rfl
      calc (partitionCPUs (u :: n :: sy :: ir :: idl :: rest)).get? (i + 1)
          = (partitionCPUs rest).get? i := rfl
        _ = some ⟨rest.getD (5 * i) 0, rest.getD (5 * i + 1) 0, rest.getD (5 * i + 2) 0,
              rest.getD (5 * i + 3) 0, rest.getD (5 * i + 4) 0⟩ := ih
        _ = some ⟨(u :: n :: sy :: ir :: idl :: rest).getD (5 * (i + 1)) 0,
              (u :: n :: sy :: ir :: idl :: rest).getD (5 * (i + 1) + 1) 0,
              (u :: n :: sy :: ir :: idl :: rest).getD (5 * (i + 1) + 2) 0,
              (u :: n :: sy :: ir :: idl :: rest).getD (5 * (i + 1) + 3) 0,
              (u :: n :: sy :: ir :: idl :: rest).getD (5 * (i + 1) + 4) 0⟩ := by
            rw [show 5 * (i + 1) + 4 = 5 * i + 4 + 5 by ring,
              show 5 * (i + 1) + 3 = 5 * i + 3 + 5 by ring,
              show 5 * (i + 1) + 2 = 5 * i + 2 + 5 by ring,
              show 5 * (i + 1) + 1 = 5 * i + 1 + 5 by ring,
              show 5 * (i + 1) = 5 * i + 5 by ring,
              e5, e5, e5, e5, e5]
  | [], i, h => absurd h (by simp only [List.length_nil]; omega)
  | [_], i, h => absurd h (by simp only [List.length_cons, List.length_nil]; omega)
  | [_, _], i, h => absurd h (by simp only [List.length_cons, List.length_nil]; omega)
  | [_, _, _], i, h => absurd h (by simp only [List.length_cons, List.length_nil]; omega)
  | [_, _, _, _], i, h => absurd h (by simp only [List.length_cons, List.length_nil]; omega)

/-- `getD` through `map` at an in-range index. -/
theorem getD_map_div (g : Int → Rat) : ∀ (l : List Int) (j : Nat), j < l.length →
    (l.map g).getD j 0 = g (l.getD j 0)
  | _ :: _, 0, _ => rfl
  | a :: l, j + 1, h =>
      getD_map_div g l j (by simp only [List.length_cons] at h; omega)
  | [], j, h => absurd h (by simp)

/-- Success path of `getCPUTimes`: both sysctls succeeded, the clockrate
buffer is non-empty, and the word count is a multiple of five. -/
theorem getCPUTimes_ok (cb cpb : List Nat) (oob : Nat → Nat)
    (hne : cb.length ≠ 0) (hmod : (decodeWords cpb).length % 5 = 0) :
    getCPUTimes (.ok cb) (.ok cpb) oob =
      .ok (partitionCPUs ((decodeWords cpb).map (fun (t : Int) => (t : Rat) / cpufreqOf cb oob))) := by
  have hm : ((decodeWords cpb).map (fun (t : Int) => (t : Rat) / cpufreqOf cb oob)).length % 5 = 0 := by
    rw [List.length_map]; exact hmod
  simp only [getCPUTimes]
  rw [if_neg hne, if_pos hm]

/-- Panic path of `getCPUTimes`: a word count that is not a multiple of
five makes the grouping loop index out of range. -/
theorem getCPUTimes_panic (cb cpb : List Nat) (oob : Nat → Nat)
    (hne : cb.length ≠ 0) (hmod : (decodeWords cpb).length % 5 ≠ 0) :
    getCPUTimes (.ok cb) (.ok cpb) oob = .error .outOfRange := by
  have hm : ¬ ((decodeWords cpb).map (fun (t : Int) => (t : Rat) / cpufreqOf cb oob)).length % 5 = 0 := by
    rw [List.length_map]; exact hmod
  simp only [getCPUTimes]
  rw [if_neg hne, if_neg hm]

/-- The concrete record `clockb100` decodes to frequency 100. -/
theorem cpufreqOf_clockb100 : cpufreqOf clockb100 oob0 = 100 := by
  have hd : decodeClockinfo clockb100 oob0 = ⟨100, 0, 0, 0, 0⟩ := by decide
  simp only [cpufreqOf, hd]
  norm_num

/-- The concrete record `clockb120` decodes to frequency 120. -/
theorem cpufreqOf_clockb120 : cpufreqOf clockb120 oob0 = 120 := by
  have hd : decodeClockinfo clockb120 oob0 = ⟨120, 0, 0, 0, 0⟩ := by decide
  simp only [cpufreqOf, hd]
  norm_num

/-! ### Claims -/

/-- Claim C1 (amended): the CPU time decoder never reports a decode/layout
failure for a `kern.cp_times` blob whose byte length is not an exact
multiple of `5 * nativeWidth`.  Instead, trailing bytes beyond a whole
number of native words are silently dropped; if the resulting word count
is a multiple of five the decode silently succeeds on the truncated data
(yielding `length / nativeWidth / 5` CPU groups), and only when the word
count is not a multiple of five does the grouping loop crash with a Go
index-out-of-range runtime panic, which is a crash rather than a reported
decode failure. -/
theorem C1_amended (cb cpb : List Nat) (oob : Nat → Nat) (hne : cb.length ≠ 0) :
    (cpb.length / nativeWidth % 5 = 0 →
      getCPUTimes (.ok cb) (.ok cpb) oob =
        .ok (partitionCPUs ((decodeWords cpb).map
          (fun (t : Int) => (t : Rat) / cpufreqOf cb oob))) ∧
      (partitionCPUs ((decodeWords cpb).map
          (fun (t : Int) => (t : Rat) / cpufreqOf cb oob))).length =
        cpb.length / nativeWidth / 5) ∧
    (cpb.length / nativeWidth % 5 ≠ 0 →
      getCPUTimes (.ok cb) (.ok cpb) oob = .error .outOfRange) := by
  constructor
  · intro hmod8
    have hmod : (decodeWords cpb).length % 5 = 0 := by
      rw [decodeWords_length]
      simpa [nativeWidth] using hmod8
    refine ⟨getCPUTimes_ok cb cpb oob hne hmod, ?_⟩
    rw [partitionCPUs_length, List.length_map, decodeWords_length]
    simp [nativeWidth]
  · intro hmod8
    apply getCPUTimes_panic cb cpb oob hne
    rw [decodeWords_length]
    simpa [nativeWidth] using hmod8

/-- Claim C1 counterexample: a 41-byte blob — whose length is not a
multiple of `5 * nativeWidth = 40` — does not produce any decode/layout
failure: the decoder silently drops the trailing byte and returns one
fully decoded CPU group. -/
theorem C1_cex :
    (List.replicate 41 0).length % (5 * nativeWidth) ≠ 0 ∧
    getCPUTimes (.ok clockb100) (.ok (List.replicate 41 0)) oob0 =
      .ok [{ user := 0, nice := 0, sys := 0, intr := 0, idle := 0 }] := by
  constructor
  · decide
  · have h : decodeWords (List.replicate 41 0) = [0, 0, 0, 0, 0] := by decide
    rw [getCPUTimes_ok clockb100 _ oob0 (by decide) (by rw [h]; decide), h,
      cpufreqOf_clockb100]
    simp only [List.map, partitionCPUs]
    norm_num

/-- Claim C1 witness: a 48-byte blob (6 words, not a multiple of 5)
drives the grouping loop out of range. -/
theorem C1_witness :
    getCPUTimes (.ok clockb100) (.ok (List.replicate 48 0)) oob0 = .error .outOfRange :=
  (C1_amended clockb100 (List.replicate 48 0) oob0 (by decide)).2 (by decide)

/-- Claim C2 (amended): the decoder performs no validation of the decoded
clock frequencies.  When `stathz ≤ 0` the conversion divisor is `hz`
regardless of its sign, and when both are non-positive decoding still
proceeds and succeeds without reporting any error, executing the
tick-to-seconds division with the non-positive divisor (in the Go code a
zero divisor produces IEEE `NaN`/`Inf` sample values, not an error). -/
theorem C2_amended (cb cpb : List Nat) (oob : Nat → Nat) (hne : cb.length ≠ 0)
    (hs : (decodeClockinfo cb oob).stathz ≤ 0) (hh : (decodeClockinfo cb oob).hz ≤ 0)
    (hmod : (decodeWords cpb).length % 5 = 0) :
    cpufreqOf cb oob = ((decodeClockinfo cb oob).hz : Rat) ∧
    cpufreqOf cb oob ≤ 0 ∧
    isOk (getCPUTimes (.ok cb) (.ok cpb) oob) = true := by
  have h1 : cpufreqOf cb oob = ((decodeClockinfo cb oob).hz : Rat) := by
    simp only [cpufreqOf]
    rw [if_neg (by omega)]
  refine ⟨h1, ?_, ?_⟩
  · rw [h1]
    exact_mod_cast hh
  · rw [getCPUTimes_ok cb cpb oob hne hmod]
    rfl

/-- Claim C2 counterexample: with `stathz = 0` and `hz = 0` decoded from
the clock-rate record, the decoder does not report any fatal decode
error: it returns success on a 40-byte tick blob, having executed the
conversion division with divisor 0. -/
theorem C2_cex :
    (decodeClockinfo clockbZero oob0).stathz = 0 ∧
    (decodeClockinfo clockbZero oob0).hz = 0 ∧
    isOk (getCPUTimes (.ok clockbZero) (.ok (List.replicate 40 0)) oob0) = true := by
  refine ⟨by decide, by decide, ?_⟩
  have h : decodeWords (List.replicate 40 0) = [0, 0, 0, 0, 0] := by decide
  rw [getCPUTimes_ok clockbZero _ oob0 (by decide) (by rw [h]; decide)]
  rfl

/-- Claim C2 witness: the amended behaviour at the all-zero clock
record. -/
theorem C2_witness :
    cpufreqOf clockbZero oob0 = ((decodeClockinfo clockbZero oob0).hz : Rat) ∧
    cpufreqOf clockbZero oob0 ≤ 0 ∧
    isOk (getCPUTimes (.ok clockbZero) (.ok (List.replicate 40 0)) oob0) = true :=
  C2_amended clockbZero (List.replicate 40 0) oob0 (by decide) (by decide) (by decide)
    (by decide)

/-- Claim C5: the conversion frequency is the statistics-clock frequency
whenever it is positive and the base clock frequency otherwise; in
particular with `stathz = 0` and `hz = 120` the frequency is 120 and
every raw tick value `t` is converted to exactly `t / 120`. -/
theorem C5_thm (cb cpb : List Nat) (oob : Nat → Nat)
    (hne : cb.length ≠ 0) (hmod : (decodeWords cpb).length % 5 = 0)
    (hs : (decodeClockinfo cb oob).stathz = 0) (hh : (decodeClockinfo cb oob).hz = 120) :
    (∀ (cb' : List Nat) (oob' : Nat → Nat), 0 < (decodeClockinfo cb' oob').stathz →
      cpufreqOf cb' oob' = ((decodeClockinfo cb' oob').stathz : Rat)) ∧
    (∀ (cb' : List Nat) (oob' : Nat → Nat), (decodeClockinfo cb' oob').stathz ≤ 0 →
      cpufreqOf cb' oob' = ((decodeClockinfo cb' oob').hz : Rat)) ∧
    cpufreqOf cb oob = 120 ∧
    getCPUTimes (.ok cb) (.ok cpb) oob =
      .ok (partitionCPUs ((decodeWords cpb).map (fun (t : Int) => (t : Rat) / 120))) := by
  have hsel1 : ∀ (cb' : List Nat) (oob' : Nat → Nat),
      0 < (decodeClockinfo cb' oob').stathz →
      cpufreqOf cb' oob' = ((decodeClockinfo cb' oob').stathz : Rat) := by
    intro cb' oob' hpos
    simp only [cpufreqOf]
    rw [if_pos hpos]
  have hsel2 : ∀ (cb' : List Nat) (oob' : Nat → Nat),
      (decodeClockinfo cb' oob').stathz ≤ 0 →
      cpufreqOf cb' oob' = ((decodeClockinfo cb' oob').hz : Rat) := by
    intro cb' oob' hnp
    simp only [cpufreqOf]
    rw [if_neg (by omega)]
  have hfreq : cpufreqOf cb oob = 120 := by
    rw [hsel2 cb oob (by omega), hh]
    norm_num
  refine ⟨hsel1, hsel2, hfreq, ?_⟩
  rw [getCPUTimes_ok cb cpb oob hne hmod, hfreq]

/-- Claim C5 witness: at a concrete record with `stathz = 0`, `hz = 120`
the frequency used is 120 and decoding succeeds with each tick divided
by 120. -/
theorem C5_witness :
    cpufreqOf clockb120 oob0 = 120 ∧
    getCPUTimes (.ok clockb120) (.ok (List.replicate 40 0)) oob0 =
      .ok (partitionCPUs ((decodeWords (List.replicate 40 0)).map
        (fun (t : Int) => (t : Rat) / 120))) :=
  ⟨(C5_thm clockb120 (List.replicate 40 0) oob0 (by decide) (by decide) (by decide)
      (by decide)).2.2.1,
   (C5_thm clockb120 (List.replicate 40 0) oob0 (by decide) (by decide) (by decide)
      (by decide)).2.2.2⟩

/-- Claim C4 (amended): for a blob of length exactly
`5 * cpuCount * nativeWidth` bytes with a positive conversion frequency,
decoding succeeds with exactly `cpuCount` CPU records; the `i`-th record
takes its five values from the five contiguous word positions starting at
`5*i`, assigned in the fixed order `user, nice, sys, intr, idle`, each
value being the corresponding raw word divided by the frequency.  A
value is non-negative whenever its raw word is non-negative; the words
are native signed integers, so a blob encoding a negative word yields a
negative value (see the counterexample), which is the only respect in
which the original claim fails. -/
theorem C4_amended (cb cpb : List Nat) (oob : Nat → Nat) (cpuCount : Nat)
    (hne : cb.length ≠ 0) (hfreq : 0 < cpufreqOf cb oob)
    (hlen : cpb.length = 5 * cpuCount * nativeWidth) :
    getCPUTimes (.ok cb) (.ok cpb) oob =
      .ok (partitionCPUs ((decodeWords cpb).map
        (fun (t : Int) => (t : Rat) / cpufreqOf cb oob))) ∧
    (partitionCPUs ((decodeWords cpb).map
        (fun (t : Int) => (t : Rat) / cpufreqOf cb oob))).length = cpuCount ∧
    (∀ i : Nat, i < cpuCount →
      (partitionCPUs ((decodeWords cpb).map
          (fun (t : Int) => (t : Rat) / cpufreqOf cb oob))).get? i =
        some { user := ((decodeWords cpb).getD (5 * i) 0 : Rat) / cpufreqOf cb oob,
               nice := ((decodeWords cpb).getD (5 * i + 1) 0 : Rat) / cpufreqOf cb oob,
               sys := ((decodeWords cpb).getD (5 * i + 2) 0 : Rat) / cpufreqOf cb oob,
               intr := ((decodeWords cpb).getD (5 * i + 3) 0 : Rat) / cpufreqOf cb oob,
               idle := ((decodeWords cpb).getD (5 * i + 4) 0 : Rat) / cpufreqOf cb oob }) ∧
    (∀ j : Nat, 0 ≤ (decodeWords cpb).getD j 0 →
      0 ≤ ((decodeWords cpb).getD j 0 : Rat) / cpufreqOf cb oob) := by
  have hwlen : (decodeWords cpb).length = 5 * cpuCount := by
    rw [decodeWords_length, hlen]
    simp only [nativeWidth]
    omega
  have hmod : (decodeWords cpb).length % 5 = 0 := by
    rw [hwlen]
    omega
  refine ⟨getCPUTimes_ok cb cpb oob hne hmod, ?_, ?_, ?_⟩
  · rw [partitionCPUs_length, List.length_map, hwlen]
    omega
  · intro i hi
    have h4 : 5 * i + 4 <
        ((decodeWords cpb).map (fun (t : Int) => (t : Rat) / cpufreqOf cb oob)).length := by
      rw [List.length_map, hwlen]
      omega
    rw [partitionCPUs_get? _ i h4,
      getD_map_div _ _ _ (by rw [hwlen]; omega),
      getD_map_div _ _ _ (by rw [hwlen]; omega),
      getD_map_div _ _ _ (by rw [hwlen]; omega),
      getD_map_div _ _ _ (by rw [hwlen]; omega),
      getD_map_div _ _ _ (by rw [hwlen]; omega)]
  · intro j hj
    exact div_nonneg (by exact_mod_cast hj) (le_of_lt hfreq)

/-- Claim C4 counterexample: a 40-byte blob of `0xFF` bytes (one CPU's
worth) decodes — with conversion frequency 120 — to the single record
whose five values are all `-1/120`: the raw words are native signed
integers, so the emitted values are negative, contradicting the claimed
unconditional non-negativity. -/
theorem C4_cex :
    (List.replicate 40 255).length = 5 * 1 * nativeWidth ∧
    0 < cpufreqOf clockb120 oob0 ∧
    getCPUTimes (.ok clockb120) (.ok (List.replicate 40 255)) oob0 =
      .ok [{ user := -1/120, nice := -1/120, sys := -1/120, intr := -1/120,
             idle := -1/120 }] ∧
    ¬ (0 ≤ (-1/120 : Rat)) := by
  refine ⟨by decide, ?_, ?_, by norm_num⟩
  · rw [cpufreqOf_clockb120]
    norm_num
  · have h : decodeWords (List.replicate 40 255) = [-1, -1, -1, -1, -1] := by decide
    rw [getCPUTimes_ok clockb120 _ oob0 (by decide) (by rw [h]; decide), h,
      cpufreqOf_clockb120]
    simp only [List.map, partitionCPUs]
    norm_num

/-- Claim C4 witness: an 80-byte blob decodes to exactly two CPU
records. -/
theorem C4_witness :
    getCPUTimes (.ok clockb120) (.ok (List.replicate 80 0)) oob0 =
      .ok (partitionCPUs ((decodeWords (List.replicate 80 0)).map
        (fun (t : Int) => (t : Rat) / cpufreqOf clockb120 oob0))) ∧
    (partitionCPUs ((decodeWords (List.replicate 80 0)).map
        (fun (t : Int) => (t : Rat) / cpufreqOf clockb120 oob0))).length = 2 :=
  ⟨(C4_amended clockb120 (List.replicate 80 0) oob0 2 (by decide)
      (by rw [cpufreqOf_clockb120]; norm_num) (by decide)).1,
   (C4_amended clockb120 (List.replicate 80 0) oob0 2 (by decide)
      (by rw [cpufreqOf_clockb120]; norm_num) (by decide)).2.1⟩

/-- Claim C3 (amended): when device enumeration returns a count of 3, the
device I/O decoder performs exactly the three per-device queries
`_get_stats(0)`, `_get_stats(1)`, `_get_stats(2)` and emits their sample
blocks in order — but each block has 10 samples (bytes-read, bytes-write,
transfers-other/read/write, duration-other/read/write, busy-time,
blocks), for 30 samples in total, not 9 per device and 27 in total as
claimed. -/
theorem C3_amended (k : DevstatKernel) (h : k.ndevs = 3) :
    devstatUpdate k =
      .ok (emitDevice (k.getStats 0) ++
        (emitDevice (k.getStats 1) ++ emitDevice (k.getStats 2))) ∧
    (emitDevice (k.getStats 0) ++
        (emitDevice (k.getStats 1) ++ emitDevice (k.getStats 2))).length = 30 ∧
    (∀ s : Stats, (emitDevice s).length = 10) := by
  refine ⟨?_, ?_, fun s => rfl⟩
  · unfold devstatUpdate
    rw [h]
    rfl
  · rfl

/-- Claim C3 counterexample: with three enumerated devices the decoder
emits 30 samples, not 27. -/
theorem C3_cex :
    (devstatUpdate exK3).map List.length = .ok 30 ∧
    (devstatUpdate exK3).map List.length ≠ .ok 27 := by
  refine ⟨rfl, fun hc => ?_⟩
  have h30 : (Except.ok 30 : Except String Nat) = .ok 27 := by
    calc (Except.ok 30 : Except String Nat)
        = (devstatUpdate exK3).map List.length := rfl
      _ = .ok 27 := hc
  exact absurd (Except.ok.inj h30) (by decide)

/-- Claim C3 witness: the amended behaviour at a concrete three-device
kernel state. -/
theorem C3_witness :
    devstatUpdate exK3 =
      .ok (emitDevice (exK3.getStats 0) ++
        (emitDevice (exK3.getStats 1) ++ emitDevice (exK3.getStats 2))) ∧
    (emitDevice (exK3.getStats 0) ++
        (emitDevice (exK3.getStats 1) ++ emitDevice (exK3.getStats 2))).length = 30 :=
  ⟨(C3_amended exK3 rfl).1, (C3_amended exK3 rfl).2.1⟩

/-- Claim C6: a device-count query returning the sentinel −1 makes the
collection return the enumeration-failure error and emit no samples, and
the sentinel −2 makes it return the allocation-failure error and emit no
samples; in both cases the error return carries no sample list, and the
per-device loop (hence any `_get_stats` query) is never reached. -/
theorem C6_thm (k : DevstatKernel) :
    (k.ndevs = -1 → devstatUpdate k = .error "devstat_getdevs() failed") ∧
    (k.ndevs = -2 → devstatUpdate k = .error "calloc() failed") := by
  constructor
  · intro h
    unfold devstatUpdate
    rw [h]
    rfl
  · intro h
    unfold devstatUpdate
    rw [h]
    rfl

/-- Claim C6 witness: both sentinels at concrete kernel states. -/
theorem C6_witness :
    devstatUpdate kFail1 = .error "devstat_getdevs() failed" ∧
    devstatUpdate kFail2 = .error "calloc() failed" :=
  ⟨(C6_thm kFail1).1 rfl, (C6_thm kFail2).2 rfl⟩

/-- Claim C7 (amended): the CPU time decoder fails with a query error
exactly when the underlying system call fails; a successful call that
returns fewer bytes than the 20-byte five-field record layout requires is
NOT detected — the unchecked pointer dereference reads the missing bytes
from adjacent memory and decoding proceeds without any error. -/
theorem C7_amended (cb cpb : List Nat) (oob : Nat → Nat) :
    (∀ cpt : Except Unit (List Nat),
      getCPUTimes (.error ()) cpt oob = .error .sysctlFailed) ∧
    (cb.length ≠ 0 → cb.length < 20 → (decodeWords cpb).length % 5 = 0 →
      isOk (getCPUTimes (.ok cb) (.ok cpb) oob) = true) := by
  constructor
  · intro cpt
    rfl
  · intro h1 h2 h3
    rw [getCPUTimes_ok cb cpb oob h1 h3]
    rfl

/-- Claim C7 counterexample: a clock-rate record of only 4 bytes — fewer
than the 20 the layout requires — does not produce a query error: the
decode succeeds and samples are produced. -/
theorem C7_cex :
    ([1, 0, 0, 0] : List Nat).length < 20 ∧
    isOk (getCPUTimes (.ok [1, 0, 0, 0]) (.ok (List.replicate 40 0)) oob0) = true := by
  refine ⟨by decide, ?_⟩
  have h : decodeWords (List.replicate 40 0) = [0, 0, 0, 0, 0] := by decide
  rw [getCPUTimes_ok [1, 0, 0, 0] _ oob0 (by decide) (by rw [h]; decide)]
  rfl

/-- Claim C7 witness: a failed system call yields the query error, and a
short 4-byte record yields no error at all. -/
theorem C7_witness :
    getCPUTimes (.error ()) (.ok []) oob0 = .error .sysctlFailed ∧
    isOk (getCPUTimes (.ok [1, 0, 0, 0]) (.ok (List.replicate 40 0)) oob0) = true :=
  ⟨(C7_amended [1, 0, 0, 0] (List.replicate 40 0) oob0).1 (.ok []),
   (C7_amended [1, 0, 0, 0] (List.replicate 40 0) oob0).2 (by decide) (by decide)
     (by decide)⟩

/-- Claim C8: on a successful collection cycle the `free` byte, transfer
and duration counters are present in the decoded per-device record
(`Stats` carries them) but are never emitted: the emitted block is
unchanged under arbitrary modification of the three `free` fields, no
emitted sample carries the type label `free`, the bytes metric carries
only the `read` and `write` type labels, and `other` is emitted for the
transfers and duration metrics. -/
theorem C8_thm (s : Stats) (bf tf : Nat) (df : Rat) :
    emitDevice { s with bytes := { s.bytes with free := bf },
                        transfers := { s.transfers with free := tf },
                        duration := { s.duration with free := df } } = emitDevice s ∧
    (∀ x ∈ emitDevice s, x.labels.get? 1 ≠ some "free") ∧
    (∀ x ∈ emitDevice s, x.metric = "bytes_total" →
      x.labels.get? 1 = some "read" ∨ x.labels.get? 1 = some "write") ∧
    (∃ x ∈ emitDevice s, x.metric = "transfers_total" ∧ x.labels.get? 1 = some "other") ∧
    (∃ x ∈ emitDevice s, x.metric = "duration_seconds_total" ∧
      x.labels.get? 1 = some "other") := by
  refine ⟨rfl, ?_, ?_, ?_, ?_⟩
  · intro x hx
    simp only [emitDevice, List.mem_cons, List.not_mem_nil, or_false] at hx
    rcases hx with rfl | rfl | rfl | rfl | rfl | rfl | rfl | rfl | rfl | rfl <;> simp
  · intro x hx hb
    simp only [emitDevice, List.mem_cons, List.not_mem_nil, or_false] at hx
    rcases hx with rfl | rfl | rfl | rfl | rfl | rfl | rfl | rfl | rfl | rfl <;> simp_all
  · exact ⟨⟨"transfers_total", (s.transfers.other : Rat),
      [s.device ++ toString s.unit, "other"]⟩,
      List.Mem.tail _ (List.Mem.tail _ (List.Mem.head _)), rfl, rfl⟩
  · exact ⟨⟨"duration_seconds_total", s.duration.other,
      [s.device ++ toString s.unit, "other"]⟩,
      List.Mem.tail _ (List.Mem.tail _ (List.Mem.tail _ (List.Mem.tail _
        (List.Mem.tail _ (List.Mem.head _))))), rfl, rfl⟩

/-- Claim C8 witness: changing the `free` counters of a concrete record
leaves the emitted block unchanged. -/
theorem C8_witness :
    emitDevice { statsEx with bytes := { statsEx.bytes with free := 77 },
                              transfers := { statsEx.transfers with free := 77 },
                              duration := { statsEx.duration with free := 77 } } =
      emitDevice statsEx :=
  (C8_thm statsEx 77 77 77).1

/-- Claim C9: collection is deterministic.  In this embedding the whole
kernel state a collection cycle reads (device list and per-device
records, clock-rate record, tick table, adjacent memory) is an explicit
argument and both entry points are pure functions of it, so two
invocations on equal kernel states produce identical sample lists —
same values, same label lists, same order. -/
theorem C9_thm (k k' : DevstatKernel) (cr cr' cp cp' : Except Unit (List Nat))
    (oob oob' : Nat → Nat) (hk : k = k') (hcr : cr = cr') (hcp : cp = cp')
    (ho : oob = oob') :
    devstatUpdate k = devstatUpdate k' ∧
    statUpdate cr cp oob = statUpdate cr' cp' oob' := by
  subst hk hcr hcp ho
  exact ⟨rfl, rfl⟩

/-- Claim C9 witness: two invocations at concrete unchanged kernel
states. -/
theorem C9_witness :
    devstatUpdate exK3 = devstatUpdate exK3 ∧
    statUpdate (.ok clockb120) (.ok (List.replicate 40 0)) oob0 =
      statUpdate (.ok clockb120) (.ok (List.replicate 40 0)) oob0 :=
  C9_thm exK3 exK3 (.ok clockb120) (.ok clockb120) (.ok (List.replicate 40 0))
    (.ok (List.replicate 40 0)) oob0 oob0 rfl rfl rfl rfl

/-- Claim C10: when both sysctl queries succeed (the clock-rate query
returning a non-empty buffer) and the `kern.cp_times` blob holds fewer
bytes than one native integer — the empty blob included — `getCPUTimes`
returns the empty list with no error, and the CPU collection cycle
succeeds while emitting zero samples. -/
theorem C10_thm (cb cpb : List Nat) (oob : Nat → Nat)
    (hne : cb.length ≠ 0) (hshort : cpb.length < nativeWidth) :
    getCPUTimes (.ok cb) (.ok cpb) oob = .ok [] ∧
    statUpdate (.ok cb) (.ok cpb) oob = .ok [] := by
  have hw : decodeWords cpb = [] := by
    have hl : (decodeWords cpb).length = 0 := by
      rw [decodeWords_length]
      simp only [nativeWidth] at hshort
      omega
    exact List.length_eq_zero.mp hl
  have h1 : getCPUTimes (.ok cb) (.ok cpb) oob = .ok [] := by
    rw [getCPUTimes_ok cb cpb oob hne (by rw [hw]; rfl)]
    rw [hw]
    rfl
  refine ⟨h1, ?_⟩
  unfold statUpdate
  rw [h1]
  rfl

/-- Claim C10 witness: a 3-byte blob yields an empty, error-free result
and an empty sample list. -/
theorem C10_witness :
    getCPUTimes (.ok clockb100) (.ok [0, 0, 0]) oob0 = .ok [] ∧
    statUpdate (.ok clockb100) (.ok [0, 0, 0]) oob0 = .ok [] :=
  C10_thm clockb100 [0, 0, 0] oob0 (by decide) (by decide)

end Collector
